import Mathlib

/-!
Verification of the Blender add-on `add_geometrynode_mesh.py`.  The add-on
registers an operator that creates a mesh object with no innate geometry;
all its geometry is generated by a Geometry-Nodes modifier whose node tree
the operator builds programmatically.

The host application's data (meshes, objects, node trees, the scene
collection, the Add > Mesh menu) is modelled as explicit state, and the
add-on's functions are translated line by line.  Host side effects become
explicit state passing; host nondeterminism (the node group Blender
creates for a fresh NODES modifier) becomes an explicit parameter.
-/

namespace GeomNodeMesh

/-- Three-component vectors carried by the host (3D cursor, object placement). -/
abbrev V3 := ℚ × ℚ × ℚ

/-- Node-editor locations (2D). -/
abbrev Loc := ℚ × ℚ

/-- A mesh vertex as the host stores it: coordinates plus a selection flag. -/
structure Vertex where
  co : V3
  select : Bool
  deriving DecidableEq

/-- A mesh datablock of `bpy.data.meshes`. -/
structure Mesh where
  name : String
  vertices : List Vertex
  edges : List (Nat × Nat)
  faces : List (List Nat)
  deriving DecidableEq

/-- Host semantics of `mesh.from_pydata`: replace the mesh content by the
given vertex, edge and face data; newly created vertices are unselected. -/
def Mesh.from_pydata (m : Mesh) (verts : List V3) (edges : List (Nat × Nat))
    (faces : List (List Nat)) : Mesh :=
  { m with
      vertices := verts.map (fun c => { co := c, select := false }),
      edges := edges,
      faces := faces }

/-- A node of a node tree.  The host gives each node an identity; we model
it by a numeric id.  `graph.nodes.new` creates nodes selected. -/
structure Node where
  id : Nat
  type : String
  location : Loc
  select : Bool
  deriving DecidableEq

/-- A link of a node tree, from an output socket (index into
`node.outputs`) to an input socket (index into `node.inputs`). -/
structure NodeLink where
  fromNode : Nat
  fromSocket : Nat
  toNode : Nat
  toSocket : Nat
  deriving DecidableEq

/-- A node tree (`geom_mod.node_group`): nodes, links, and the next free
node id. -/
structure NodeTree where
  nextId : Nat
  nodes : List Node
  links : List NodeLink
  deriving DecidableEq

/-- Host semantics of `graph.nodes.remove`: the node disappears together
with every link attached to one of its sockets. -/
def NodeTree.removeNode (t : NodeTree) (nid : Nat) : NodeTree :=
  { t with
      nodes := t.nodes.filter (fun n => n.id != nid),
      links := t.links.filter (fun l => l.fromNode != nid && l.toNode != nid) }

/-- The convenience class for assembling a nicely-laid-out node graph. -/
structure NodeContext where
  graph : NodeTree
  location : Loc
  deriving DecidableEq

/-- Translation of `NodeContext.__init__`: remember the graph and the
initial location; with `clear` set, remove every existing node
(the loop `for node in self.graph.nodes : self.graph.nodes.remove(node)`). -/
def NodeContext.make (graph : NodeTree) (location : Loc) (clear : Bool) : NodeContext :=
  { graph := if clear then graph.nodes.foldl (fun a n => a.removeNode n.id) graph else graph,
    location := location }

/-- Translation of `NodeContext.step_across`: returns the current position
and advances it across by `width`. -/
def NodeContext.step_across (ctx : NodeContext) (width : ℚ) : Loc × NodeContext :=
  (ctx.location, { ctx with location := (ctx.location.1 + width, ctx.location.2) })

/-- Translation of `NodeContext.step_down`: returns the current position
and advances it down by `height`. -/
def NodeContext.step_down (ctx : NodeContext) (height : ℚ) : Loc × NodeContext :=
  (ctx.location, { ctx with location := (ctx.location.1, ctx.location.2 - height) })

/-- Translation of `NodeContext.node`: `graph.nodes.new(type)` appends a
fresh node (created selected by the host) and `node.location = pos` places
it at `pos`.  Returns the updated context and the new node's id. -/
def NodeContext.node (ctx : NodeContext) (ty : String) (pos : Loc) : NodeContext × Nat :=
  ({ ctx with
      graph := { ctx.graph with
        nextId := ctx.graph.nextId + 1,
        nodes := ctx.graph.nodes ++
          [{ id := ctx.graph.nextId, type := ty, location := pos, select := true }] } },
   ctx.graph.nextId)

/-- Translation of `NodeContext.link`: `graph.links.new(frôm, to)` appends
a link between the given sockets, each given as (node id, socket index). -/
def NodeContext.link (ctx : NodeContext) (frm dst : Nat × Nat) : NodeContext :=
  { ctx with
      graph := { ctx.graph with
        links := ctx.graph.links ++
          [{ fromNode := frm.1, fromSocket := frm.2, toNode := dst.1, toSocket := dst.2 }] } }

/-- Translation of `deselect_all`: clear the selection flag of every node
of the graph. -/
def deselect_all (node_graph : NodeTree) : NodeTree :=
  { node_graph with nodes := node_graph.nodes.map (fun n => { n with select := false }) }

/-- The `NODE_MESH` enumeration of primitive mesh nodes. -/
inductive NODE_MESH where
  | CIRCLE
  | CONE
  | CUBE
  | CYLINDER
  | GRID
  | ICO_SPHERE
  | LINE
  | UV_SPHERE
  deriving DecidableEq

/-- First component of each `NODE_MESH` member's value: the display label. -/
def NODE_MESH.label : NODE_MESH → String
  | .CIRCLE => "Circle"
  | .CONE => "Cone"
  | .CUBE => "Cube"
  | .CYLINDER => "Cylinder"
  | .GRID => "Grid/Plane"
  | .ICO_SPHERE => "Ico Sphere"
  | .LINE => "Line"
  | .UV_SPHERE => "UV Sphere"

/-- Second component of each `NODE_MESH` member's value: the node type name. -/
def NODE_MESH.typename : NODE_MESH → String
  | .CIRCLE => "GeometryNodeMeshCircle"
  | .CONE => "GeometryNodeMeshCone"
  | .CUBE => "GeometryNodeMeshCube"
  | .CYLINDER => "GeometryNodeMeshCylinder"
  | .GRID => "GeometryNodeMeshGrid"
  | .ICO_SPHERE => "GeometryNodeMeshIcoSphere"
  | .LINE => "GeometryNodeMeshLine"
  | .UV_SPHERE => "GeometryNodeMeshUVSphere"

/-- The members of the enumeration in declaration order, as
`NODE_MESH.__members__.values()` yields them. -/
def NODE_MESH.members : List NODE_MESH :=
  [.CIRCLE, .CONE, .CUBE, .CYLINDER, .GRID, .ICO_SPHERE, .LINE, .UV_SPHERE]

/-- Translation of `NODE_MESH_DEFAULT = NODE_MESH.CUBE`. -/
def NODE_MESH_DEFAULT : NODE_MESH := NODE_MESH.CUBE

/-- Lexicographic code-point comparison of character lists, as Python
compares strings. -/
def charListLe : List Char → List Char → Bool
  | [], _ => true
  | _ :: _, [] => false
  | a :: as, b :: bs =>
      if a.toNat < b.toNat then true
      else if b.toNat < a.toNat then false
      else charListLe as bs

/-- Python's string comparison `a <= b`: lexicographic on code points. -/
def strLe (a b : String) : Bool := charListLe a.data b.data

/-- Stable insertion into a sorted list (helper for the model of Python's
stable `sorted`). -/
def insertLe {α : Type} (le : α → α → Bool) (a : α) : List α → List α
  | [] => [a]
  | b :: l => if le a b then a :: b :: l else b :: insertLe le a l

/-- Model of Python's stable ascending `sorted`. -/
def sortLe {α : Type} (le : α → α → Bool) : List α → List α
  | [] => []
  | a :: l => insertLe le a (sortLe le l)

/-- A declared `bpy.props.EnumProperty`: default identifier, item triples
(identifier, name, description), and UI name. -/
structure EnumProperty where
  default : String
  items : List (String × String × String)
  name : String
  deriving DecidableEq

/-- Operator properties of `AddGeometryNodeMesh` as carried by an operator
instance: the `meshtype` enum value and the `position` float vector. -/
structure OperatorProps where
  meshtype : String
  position : V3
  deriving DecidableEq

/-- A modifier on an object; for a NODES modifier, `node_group` is its
node tree. -/
structure Modifier where
  name : String
  type : String
  node_group : NodeTree
  deriving DecidableEq

/-- An object of `bpy.data.objects`: its name, the name of its mesh
datablock (`data`), its placement (only translations occur, so
`matrix_basis` is modelled by the translation vector), its modifier stack
and its selection flag. -/
structure BObject where
  name : String
  data : String
  matrix_basis : V3
  modifiers : List Modifier
  select : Bool
  deriving DecidableEq

/-- The scene as the add-on touches it: the 3D-cursor location and the
names of the objects linked into the scene's collection. -/
structure SceneData where
  cursor : V3
  collection_objects : List String
  deriving DecidableEq

/-- The host state the operator reads and writes: mesh datablocks, objects,
the scene, and the view layer's active object (by name). -/
structure BState where
  meshes : List Mesh
  objects : List BObject
  scene : SceneData
  active : Option String
  deriving DecidableEq

/-- A window event as passed to `invoke` (the operator never reads it). -/
structure Event where
  mouse_x : Int
  mouse_y : Int
  deriving DecidableEq

/-- The largest length among a list of names (helper for fresh naming). -/
def maxLen (taken : List String) : Nat :=
  taken.foldr (fun s acc => max s.length acc) 0

/-- Model of the host's unique naming in `bpy.data.meshes.new` and
`bpy.data.objects.new`: the requested name when it is free, otherwise a
fresh name distinct from every taken one (here: longer than all of them). -/
def freshName (base : String) (taken : List String) : String :=
  if base ∈ taken then
    base ++ String.mk (List.replicate (maxLen taken + 1 - base.length) '#')
  else base

/-- Model of `bpy.data.objects[name].select_set(True)`: set the selection
flag of the (first) object carrying the given name. -/
def selectByName : List BObject → String → List BObject
  | [], _ => []
  | o :: rest, nm =>
      if o.name = nm then { o with select := true } :: rest
      else o :: selectByName rest nm

namespace AddGeometryNodeMesh

/-- The `bl_idname` of the operator. -/
def bl_idname : String := "add_mesh.geometry_node_mesh"

/-- The `bl_label` of the operator. -/
def bl_label : String := "Geometry-Node Mesh"

/-- The `bl_options` of the operator. -/
def bl_options : List String := ["REGISTER", "UNDO"]

/-- The `meshtype` enum property: default is the default member's type
name, and the items are the members sorted by label, each contributing
(typename, label, label). -/
def meshtype : EnumProperty :=
  { default := NODE_MESH_DEFAULT.typename,
    items :=
      (sortLe (fun a b => strLe a.label b.label) NODE_MESH.members).map
        (fun item => (item.typename, item.label, item.label)),
    name := "Mesh Type" }

/-- Identifiers of the properties laid out by `draw`: a single
`the_col.prop(self, "meshtype", ...)` call. -/
def draw : List String := ["meshtype"]

/-- Translation of `action_common`, line by line.  `context` is the host
state; `initTree` stands for the node group the host creates for the fresh
NODES modifier (`geom_mod.node_group`).  The result is the updated host
state, the operator properties after the call (the method never assigns
them), and the returned status set. -/
def action_common (self : OperatorProps) (context : BState) (redoing : Bool)
    (initTree : NodeTree) : BState × OperatorProps × List String :=
  let pos : V3 := if redoing then self.position else context.scene.cursor
  let objects0 := context.objects.map (fun o => { o with select := false })
  let new_mesh_name0 := "GeomNodeMesh"
  let new_mesh_name := freshName new_mesh_name0 (context.meshes.map Mesh.name)
  let new_mesh0 : Mesh := { name := new_mesh_name, vertices := [], edges := [], faces := [] }
  let new_mesh := new_mesh0.from_pydata [] [] []
  let new_obj_name := freshName new_mesh_name (context.objects.map BObject.name)
  let ctx0 := NodeContext.make initTree (0, 0) true
  let s1 := ctx0.step_across 200
  let r1 := s1.2.node self.meshtype s1.1
  let s2 := r1.1.step_across 100
  let r2 := s2.2.node ("NodeGroupOutput") s2.1
  let ctx5 := r2.1.link (r1.2, 0) (r2.2, 0)
  let graph := deselect_all ctx5.graph
  let geom_mod : Modifier := { name := "Geometry", type := "NODES", node_group := graph }
  let new_obj : BObject :=
    { name := new_obj_name, data := new_mesh_name, matrix_basis := pos,
      modifiers := [geom_mod], select := false }
  let new_mesh2 :=
    { new_mesh with vertices := new_mesh.vertices.map (fun v => { v with select := true }) }
  ( { meshes := context.meshes ++ [new_mesh2],
      objects := selectByName (objects0 ++ [new_obj]) new_obj_name,
      scene := { cursor := context.scene.cursor,
                 collection_objects := context.scene.collection_objects ++ [new_obj_name] },
      active := some new_obj_name },
    self, ["FINISHED"] )

/-- Translation of `execute`: delegate to `action_common` with
`redoing = True`. -/
def execute (self : OperatorProps) (context : BState) (initTree : NodeTree) :
    BState × OperatorProps × List String :=
  action_common self context true initTree

/-- Translation of `invoke`: delegate to `action_common` with
`redoing = False`; the event is not consulted. -/
def invoke (self : OperatorProps) (context : BState) (_event : Event) (initTree : NodeTree) :
    BState × OperatorProps × List String :=
  action_common self context false initTree

end AddGeometryNodeMesh

/-- Registration state of the host: the registered classes and the entries
of the `VIEW3D_MT_mesh_add` menu, both by name. -/
structure RegistryState where
  classes : List String
  mesh_add_menu : List String
  deriving DecidableEq

/-- The menu draw function `add_invoke_item`, identified by name. -/
def add_invoke_item : String := "add_invoke_item"

/-- The `_classes_` tuple of the add-on. -/
def _classes_ : List String := ["AddGeometryNodeMesh"]

/-- Translation of `register`: register every class of `_classes_`, then
append the menu item to `VIEW3D_MT_mesh_add`. -/
def register (s : RegistryState) : RegistryState :=
  { classes := _classes_.foldl (fun acc c => acc ++ [c]) s.classes,
    mesh_add_menu := s.mesh_add_menu ++ [add_invoke_item] }

/-- Translation of `unregister`: remove the menu item from
`VIEW3D_MT_mesh_add` (the first occurrence, as the host's `remove` does). -/
def unregister (s : RegistryState) : RegistryState :=
  { s with mesh_add_menu := s.mesh_add_menu.erase add_invoke_item }

/-- Well-formedness of a host node tree: every link connects nodes that
are in the tree.  Every tree the host hands out satisfies this. -/
def LinksWF (t : NodeTree) : Prop :=
  ∀ l ∈ t.links, l.fromNode ∈ t.nodes.map Node.id ∧ l.toNode ∈ t.nodes.map Node.id

instance (t : NodeTree) : Decidable (LinksWF t) := by
  unfold LinksWF
  infer_instance

/-- The name the host gives the mesh created by `action_common`. -/
def newMeshName (st : BState) : String :=
  freshName ("GeomNodeMesh") (st.meshes.map Mesh.name)

/-- The name the host gives the object created by `action_common`. -/
def newObjName (st : BState) : String :=
  freshName (newMeshName st) (st.objects.map BObject.name)

/-- The links of a tree that survive removing every node of the tree
(none, whenever the tree is well formed). -/
def clearedLinks (t : NodeTree) : List NodeLink :=
  t.links.filter (fun lk =>
    !((t.nodes.map Node.id).contains lk.fromNode) &&
    !((t.nodes.map Node.id).contains lk.toNode))

/-- The node tree `action_common` builds inside the fresh NODES modifier:
a generator node of the chosen type and a group-output node, both
deselected, joined by one link. -/
def builtTree (mt : String) (t : NodeTree) : NodeTree :=
  { nextId := t.nextId + 2,
    nodes :=
      [ { id := t.nextId, type := mt, location := (0, 0), select := false },
        { id := t.nextId + 1, type := "NodeGroupOutput", location := (200, 0), select := false } ],
    links := clearedLinks t ++
      [ { fromNode := t.nextId, fromSocket := 0, toNode := t.nextId + 1, toSocket := 0 } ] }

/-- The object `action_common` creates, after its selection flag is set. -/
def newObject (self : OperatorProps) (st : BState) (redoing : Bool) (t : NodeTree) : BObject :=
  { name := newObjName st,
    data := newMeshName st,
    matrix_basis := if redoing then self.position else st.scene.cursor,
    modifiers := [{ name := "Geometry", type := "NODES", node_group := builtTree self.meshtype t }],
    select := true }

/-- Every name of a list of names is at most `maxLen` of the list long. -/
lemma le_maxLen (s : String) (ts : List String) (h : s ∈ ts) : s.length ≤ maxLen ts := by
  induction ts with
  | nil => cases h
  | cons a ts ih =>
      rcases List.mem_cons.mp h with h1 | h2
      · subst h1
        exact le_max_left _ _
      · exact le_trans (ih h2) (le_max_right _ _)

/-- The host's fresh name is never one of the taken names. -/
lemma freshName_not_mem (base : String) (ts : List String) : freshName base ts ∉ ts := by
  unfold freshName
  by_cases hb : base ∈ ts
  · simp only [hb, if_true]
    intro hmem
    have h1 : base.length ≤ maxLen ts := le_maxLen _ _ hb
    have h2 := le_maxLen _ _ hmem
    have h3 : (base ++ String.mk (List.replicate (maxLen ts + 1 - base.length) '#')).length
        = maxLen ts + 1 := by
      rw [String.length_append]
      have h4 : (String.mk (List.replicate (maxLen ts + 1 - base.length) '#')).length
          = maxLen ts + 1 - base.length := List.length_replicate _ _
      rw [h4]
      omega
    rw [h3] at h2
    omega
  · simp [hb]

/-- Removing nodes does not touch the id counter. -/
lemma foldl_removeNode_nextId (l : List Node) (t : NodeTree) :
    (l.foldl (fun a n => a.removeNode n.id) t).nextId = t.nextId := by
  induction l generalizing t with
  | nil => rfl
  | cons n ns ih => exact (ih _).trans rfl

/-- The nodes surviving the removal loop are those whose id is none of the
removed ones. -/
lemma foldl_removeNode_nodes (l : List Node) (t : NodeTree) :
    (l.foldl (fun a n => a.removeNode n.id) t).nodes
      = t.nodes.filter (fun m => !((l.map Node.id).contains m.id)) := by
  induction l generalizing t with
  | nil => simp
  | cons n ns ih =>
      rw [List.foldl_cons, ih]
      show (NodeTree.removeNode t n.id).nodes.filter _ = _
      rw [NodeTree.removeNode, List.filter_filter]
      apply List.filter_congr
      intro m _
      by_cases h1 : m.id = n.id
      · simp [h1]
      · by_cases h2 : m.id ∈ ns.map Node.id <;> simp [h1, h2, Ne.symm h1]

/-- The links surviving the removal loop are those attached to none of the
removed nodes. -/
lemma foldl_removeNode_links (l : List Node) (t : NodeTree) :
    (l.foldl (fun a n => a.removeNode n.id) t).links
      = t.links.filter (fun lk =>
          !((l.map Node.id).contains lk.fromNode) &&
          !((l.map Node.id).contains lk.toNode)) := by
  induction l generalizing t with
  | nil => simp
  | cons n ns ih =>
      rw [List.foldl_cons, ih]
      show (NodeTree.removeNode t n.id).links.filter _ = _
      rw [NodeTree.removeNode, List.filter_filter]
      apply List.filter_congr
      intro lk _
      by_cases h1 : lk.fromNode = n.id
      · simp [h1]
      · by_cases h2 : lk.toNode = n.id
        · simp [h1, h2, Ne.symm h1]
        · by_cases h3 : lk.fromNode ∈ ns.map Node.id <;>
            by_cases h4 : lk.toNode ∈ ns.map Node.id <;>
              simp [h1, h2, h3, h4, Ne.symm h1, Ne.symm h2]

/-- Filtering a list of nodes down to those whose id does not occur among
the ids of the very same list leaves nothing. -/
lemma filter_not_contains_self (l : List Node) :
    l.filter (fun m => !((l.map Node.id).contains m.id)) = [] := by
  rw [List.filter_eq_nil_iff]
  intro a ha
  simp [List.elem_iff]
  exact ⟨a, ha, rfl⟩

/-- Clearing a `NodeContext` empties the nodes and keeps only the (under
well-formedness: no) links attached to no node. -/
lemma make_clear_graph (t : NodeTree) (p : Loc) :
    (NodeContext.make t p true).graph
      = { nextId := t.nextId, nodes := [], links := clearedLinks t } := by
  show t.nodes.foldl (fun a n => a.removeNode n.id) t = _
  have h1 := foldl_removeNode_nextId t.nodes t
  have h2 := foldl_removeNode_nodes t.nodes t
  have h3 := foldl_removeNode_links t.nodes t
  cases he : t.nodes.foldl (fun a n => a.removeNode n.id) t with
  | mk ni ns ls =>
      rw [he] at h1 h2 h3
      simp only at h1 h2 h3
      rw [h1, h2, h3, filter_not_contains_self]
      rfl

/-- A well-formed tree has no link surviving the clearing. -/
lemma clearedLinks_eq_nil (t : NodeTree) (h : LinksWF t) : clearedLinks t = [] := by
  unfold clearedLinks
  rw [List.filter_eq_nil_iff]
  intro lk hlk
  have hf := (h lk hlk).1
  simp [List.elem_iff, hf]

/-- Deselecting every object does not change the names. -/
lemma map_name_deselect (l : List BObject) :
    (l.map (fun p => { p with select := false })).map BObject.name = l.map BObject.name := by
  induction l with
  | nil => rfl
  | cons a l ih => simp [ih]

/-- Looking up a freshly named object appended at the end selects exactly
that object. -/
lemma selectByName_append (l : List BObject) (o : BObject)
    (h : o.name ∉ l.map BObject.name) :
    selectByName (l ++ [o]) o.name = l ++ [{ o with select := true }] := by
  induction l with
  | nil => simp [selectByName]
  | cons p l ih =>
      have hp : ¬(p.name = o.name) := by
        intro he
        exact h (by simp [he])
      have ht : o.name ∉ l.map BObject.name := by
        intro hm
        exact h (by simp [hm])
      simp only [List.cons_append, selectByName, hp, if_false]
      exact congrArg (fun x => p :: x) (ih ht)

/-- Closed form of one run of `action_common`: the meshes gain one empty
mesh, the objects are all deselected and gain the (selected) new object
carrying the two-node modifier tree, the scene collection gains the new
object's name, and it becomes active; the operator properties are returned
untouched and the status is FINISHED. -/
lemma action_common_run (self : OperatorProps) (st : BState) (redoing : Bool) (t : NodeTree) :
    AddGeometryNodeMesh.action_common self st redoing t =
      ( { meshes := st.meshes ++
            [{ name := newMeshName st, vertices := [], edges := [], faces := [] }],
          objects := st.objects.map (fun p => { p with select := false })
            ++ [newObject self st redoing t],
          scene := { cursor := st.scene.cursor,
                     collection_objects := st.scene.collection_objects ++ [newObjName st] },
          active := some (newObjName st) },
        self, ["FINISHED"] ) := by
  simp only [AddGeometryNodeMesh.action_common, NodeContext.make, NodeContext.step_across,
    NodeContext.node, NodeContext.link, deselect_all, Mesh.from_pydata,
    newObject, builtTree, newObjName, newMeshName, reduceIte]
  simp only [foldl_removeNode_nextId, foldl_removeNode_nodes, foldl_removeNode_links,
    filter_not_contains_self, clearedLinks]
  simp only [List.nil_append, List.append_assoc, List.singleton_append, List.map_cons,
    List.map_nil, List.cons_append]
  rw [selectByName_append]
  · simp
  · rw [map_name_deselect]
    exact freshName_not_mem _ _

/-- A node group as the host creates it for a fresh NODES modifier in
Blender 2.93: a group-input and a group-output node with one link. -/
def hostDefaultTree : NodeTree :=
  { nextId := 2,
    nodes :=
      [ { id := 0, type := "NodeGroupInput", location := (0, 0), select := false },
        { id := 1, type := "NodeGroupOutput", location := (200, 0), select := false } ],
    links := [ { fromNode := 0, fromSocket := 0, toNode := 1, toSocket := 0 } ] }

/-- An empty host state, for concrete instantiations. -/
def emptyState : BState :=
  { meshes := [], objects := [],
    scene := { cursor := (0, 0, 0), collection_objects := [] },
    active := none }

/-- Operator properties holding their defaults. -/
def sampleProps : OperatorProps :=
  { meshtype := NODE_MESH_DEFAULT.typename, position := (0, 0, 0) }

/-- Claim C1: after a successful run of `action_common`, the node tree of
the newly attached Geometry Nodes modifier contains exactly two nodes —
one generator node of the type selected in the `meshtype` property and one
group-output node — and exactly one link, from the generator node's first
output socket to the output node's first input socket. -/
theorem c1_two_node_graph (self : OperatorProps) (st : BState) (redoing : Bool)
    (t : NodeTree) (h : LinksWF t) :
    ∃ o m n1 n2,
      (AddGeometryNodeMesh.action_common self st redoing t).1.objects.getLast? = some o ∧
      o.modifiers = [m] ∧
      m.node_group.nodes = [n1, n2] ∧
      n1.type = self.meshtype ∧
      n2.type = "NodeGroupOutput" ∧
      m.node_group.links
        = [{ fromNode := n1.id, fromSocket := 0, toNode := n2.id, toSocket := 0 }] := by
  rw [action_common_run]
  refine ⟨newObject self st redoing t,
    { name := "Geometry", type := "NODES", node_group := builtTree self.meshtype t },
    { id := t.nextId, type := self.meshtype, location := (0, 0), select := false },
    { id := t.nextId + 1, type := "NodeGroupOutput", location := (200, 0), select := false },
    List.getLast?_concat _, rfl, rfl, rfl, rfl, ?_⟩
  show clearedLinks t ++ _ = _
  rw [clearedLinks_eq_nil t h]
  rfl

/-- Concrete instantiation of C1 at the host's default node group. -/
theorem c1_two_node_graph_witness :
    LinksWF hostDefaultTree ∧
      ∃ o m n1 n2,
        (AddGeometryNodeMesh.action_common sampleProps emptyState false
            hostDefaultTree).1.objects.getLast? = some o ∧
        o.modifiers = [m] ∧
        m.node_group.nodes = [n1, n2] ∧
        n1.type = sampleProps.meshtype ∧
        n2.type = "NodeGroupOutput" ∧
        m.node_group.links
          = [{ fromNode := n1.id, fromSocket := 0, toNode := n2.id, toSocket := 0 }] :=
  ⟨by decide, c1_two_node_graph sampleProps emptyState false hostDefaultTree (by decide)⟩

/-- Claim C2: every invocation creates a mesh that stores no static
geometry: the constructed mesh has an empty vertex list, empty edge list
and empty face list. -/
theorem c2_mesh_has_no_static_geometry (self : OperatorProps) (st : BState)
    (redoing : Bool) (t : NodeTree) :
    ∃ m,
      (AddGeometryNodeMesh.action_common self st redoing t).1.meshes = st.meshes ++ [m] ∧
      m.vertices = [] ∧ m.edges = [] ∧ m.faces = [] := by
  rw [action_common_run]
  exact ⟨_, rfl, rfl, rfl, rfl⟩

/-- Claim C3: invoking the operator creates a new object backed by the new
empty mesh, attaches a NODES modifier to it, and links it into the scene's
collection. -/
theorem c3_object_in_scene (self : OperatorProps) (st : BState)
    (redoing : Bool) (t : NodeTree) :
    ∃ o m,
      (AddGeometryNodeMesh.action_common self st redoing t).1.objects
        = st.objects.map (fun p => { p with select := false }) ++ [o] ∧
      o.name ∉ st.objects.map BObject.name ∧
      (AddGeometryNodeMesh.action_common self st redoing t).1.meshes = st.meshes ++ [m] ∧
      o.data = m.name ∧
      m.name ∉ st.meshes.map Mesh.name ∧
      m.vertices = [] ∧
      (∃ md, o.modifiers = [md] ∧ md.type = "NODES") ∧
      (AddGeometryNodeMesh.action_common self st redoing t).1.scene.collection_objects
        = st.scene.collection_objects ++ [o.name] := by
  rw [action_common_run]
  refine ⟨newObject self st redoing t, _, rfl, ?_, rfl, rfl, ?_, rfl, ⟨_, rfl, rfl⟩, rfl⟩
  · exact freshName_not_mem _ _
  · exact freshName_not_mem _ _

/-- Claim C4: the choice of primitive type is exposed as the operator enum
property `meshtype`, the operator carries the REGISTER and UNDO options,
and the redo panel draws exactly that one property. -/
theorem c4_redoable_property :
    AddGeometryNodeMesh.bl_options = ["REGISTER", "UNDO"] ∧
    AddGeometryNodeMesh.draw = ["meshtype"] ∧
    AddGeometryNodeMesh.meshtype.items.length = 8 ∧
    AddGeometryNodeMesh.meshtype.name = "Mesh Type" := by
  refine ⟨rfl, rfl, ?_, rfl⟩
  decide

/-- Claim C5: `execute` returns exactly `action_common` with
`redoing = True`, `invoke` returns exactly `action_common` with
`redoing = False`, and the event argument is ignored. -/
theorem c5_lifecycle_delegation :
    (∀ (self : OperatorProps) (st : BState) (t : NodeTree),
        AddGeometryNodeMesh.execute self st t
          = AddGeometryNodeMesh.action_common self st true t) ∧
    (∀ (self : OperatorProps) (st : BState) (e : Event) (t : NodeTree),
        AddGeometryNodeMesh.invoke self st e t
          = AddGeometryNodeMesh.action_common self st false t) ∧
    (∀ (self : OperatorProps) (st : BState) (e1 e2 : Event) (t : NodeTree),
        AddGeometryNodeMesh.invoke self st e1 t
          = AddGeometryNodeMesh.invoke self st e2 t) :=
  ⟨fun _ _ _ => rfl, fun _ _ _ _ => rfl, fun _ _ _ _ _ => rfl⟩

/-- Claim C6: the enumeration has exactly eight members, each pairing a
type name with a display label; the `meshtype` items are exactly those
eight triples, in label order (which coincides with declaration order),
and the default is the cube. -/
theorem c6_eight_primitives :
    NODE_MESH.members.length = 8 ∧
    NODE_MESH.members.Nodup ∧
    AddGeometryNodeMesh.meshtype.items
      = NODE_MESH.members.map (fun i => (i.typename, i.label, i.label)) ∧
    AddGeometryNodeMesh.meshtype.items
      = [ ("GeometryNodeMeshCircle", "Circle", "Circle"),
          ("GeometryNodeMeshCone", "Cone", "Cone"),
          ("GeometryNodeMeshCube", "Cube", "Cube"),
          ("GeometryNodeMeshCylinder", "Cylinder", "Cylinder"),
          ("GeometryNodeMeshGrid", "Grid/Plane", "Grid/Plane"),
          ("GeometryNodeMeshIcoSphere", "Ico Sphere", "Ico Sphere"),
          ("GeometryNodeMeshLine", "Line", "Line"),
          ("GeometryNodeMeshUVSphere", "UV Sphere", "UV Sphere") ] ∧
    List.Pairwise (fun a b => strLe a.2.1 b.2.1 = true) AddGeometryNodeMesh.meshtype.items ∧
    AddGeometryNodeMesh.meshtype.default = NODE_MESH.CUBE.typename ∧
    NODE_MESH_DEFAULT = NODE_MESH.CUBE := by
  decide

/-- Claim C7: registering registers the operator class and appends one
menu item to the Add > Mesh menu; unregistering removes that item, so a
register followed by an unregister restores the menu's item list. -/
theorem c7_register_roundtrip (s : RegistryState)
    (h : add_invoke_item ∉ s.mesh_add_menu) :
    (register s).classes = s.classes ++ ["AddGeometryNodeMesh"] ∧
    (register s).mesh_add_menu = s.mesh_add_menu ++ [add_invoke_item] ∧
    (unregister (register s)).mesh_add_menu = s.mesh_add_menu := by
  refine ⟨rfl, rfl, ?_⟩
  show (s.mesh_add_menu ++ [add_invoke_item]).erase add_invoke_item = s.mesh_add_menu
  rw [List.erase_append_right _ h]
  simp

/-- Concrete instantiation of C7 at the empty registry. -/
theorem c7_register_roundtrip_witness :
    add_invoke_item ∉ (⟨[], []⟩ : RegistryState).mesh_add_menu ∧
      ((register ⟨[], []⟩).classes = (⟨[], []⟩ : RegistryState).classes ++ ["AddGeometryNodeMesh"] ∧
       (register ⟨[], []⟩).mesh_add_menu
         = (⟨[], []⟩ : RegistryState).mesh_add_menu ++ [add_invoke_item] ∧
       (unregister (register ⟨[], []⟩)).mesh_add_menu
         = (⟨[], []⟩ : RegistryState).mesh_add_menu) :=
  ⟨by decide, c7_register_roundtrip ⟨[], []⟩ (by decide)⟩

/-- Claim C8: placement depends asymmetrically on the lifecycle path — the
invoke path (`redoing = False`) places the object at the scene's 3D-cursor
location, the execute/redo path (`redoing = True`) places it at the
`position` property — and `action_common` never writes the operator
properties, so `position` keeps its previous value. -/
theorem c8_placement_asymmetry (self : OperatorProps) (st : BState)
    (redoing : Bool) (t : NodeTree) :
    (AddGeometryNodeMesh.action_common self st redoing t).2.1 = self ∧
    (∃ o, (AddGeometryNodeMesh.action_common self st false t).1.objects.getLast? = some o ∧
      o.matrix_basis = st.scene.cursor) ∧
    (∃ o, (AddGeometryNodeMesh.action_common self st true t).1.objects.getLast? = some o ∧
      o.matrix_basis = self.position) := by
  refine ⟨?_, ⟨newObject self st false t, ?_, rfl⟩, ⟨newObject self st true t, ?_, rfl⟩⟩
  · rw [action_common_run]
  · rw [action_common_run]
    exact List.getLast?_concat _
  · rw [action_common_run]
    exact List.getLast?_concat _

/-- Claim C9: `action_common` has no failure branch — for every context
and both values of the redoing flag it returns the status FINISHED. -/
theorem c9_always_finished (self : OperatorProps) (st : BState)
    (redoing : Bool) (t : NodeTree) :
    (AddGeometryNodeMesh.action_common self st redoing t).2.2 = ["FINISHED"] := rfl

/-- Claim C10: after the operator runs, every previously selected object
is deselected, the new object is selected and is the view layer's active
object, and every node of the freshly built node tree is deselected. -/
theorem c10_selection_state (self : OperatorProps) (st : BState)
    (redoing : Bool) (t : NodeTree) :
    ∃ o,
      (AddGeometryNodeMesh.action_common self st redoing t).1.objects
        = st.objects.map (fun p => { p with select := false }) ++ [o] ∧
      o.select = true ∧
      (AddGeometryNodeMesh.action_common self st redoing t).1.active = some o.name ∧
      ∀ m ∈ o.modifiers, ∀ n ∈ m.node_group.nodes, n.select = false := by
  rw [action_common_run]
  refine ⟨newObject self st redoing t, rfl, rfl, rfl, ?_⟩
  intro m hm n hn
  simp only [newObject, List.mem_singleton] at hm
  subst hm
  simp only [builtTree, List.mem_cons, List.not_mem_nil, or_false] at hn
  rcases hn with h | h <;> rw [h]

end GeomNodeMesh
